import Mathlib

set_option linter.dupNamespace false

/-!
Shallow embedding of `src/io_uring/config.rs` of the rio repository:
the `Config` structure, `Config::start`, and the `Reaper` type, together
with models of the surrounding components (`setup`, `Sq::new`, `Cq::new`,
`InFlight::new`, `TicketQueue::new`, `Cq::reaper_iter`, `Cq::reaper_thread`)
whose code is referenced from `config.rs` but lives outside the provided
sources; those are modelled from the specification and are marked as such.

Machine integers are modelled as `Nat`/`Int`; `u32::try_from` is modelled
with an explicit `2 ^ 32` bound.  Fallible operations return `Except`,
and a dedicated `Outcome` type separates a panic from an `Err` return and
from a successful return.
-/

namespace Rio

/-- The `IORING_SETUP_SQPOLL` flag bit (`1 << 1`) from the io_uring ABI. -/
def IORING_SETUP_SQPOLL : Nat := 2

/-- The fields of the kernel `io_uring_params` struct that the embedded
code reads or writes (`flags`, `sq_thread_cpu`, `cq_entries`, plus the
remaining scalar fields so that a raw override is carried verbatim). -/
structure io_uring_params where
  sq_entries : Nat
  cq_entries : Nat
  flags : Nat
  sq_thread_cpu : Nat
  sq_thread_idle : Nat
  features : Nat
  wq_fd : Nat
deriving Repr, DecidableEq

/-- `io_uring_params::default()`: all fields zeroed. -/
def io_uring_params.default : io_uring_params :=
  { sq_entries := 0, cq_entries := 0, flags := 0, sq_thread_cpu := 0
    sq_thread_idle := 0, features := 0, wq_fd := 0 }

/-- The `Config` struct of `config.rs`. -/
structure Config where
  depth : Nat
  sq_poll : Bool
  sq_poll_affinity : Nat
  io_poll : Bool
  print_profile_on_drop : Bool
  raw_params : Option io_uring_params
deriving Repr, DecidableEq

/-- `impl Default for Config`. -/
def Config.default : Config :=
  { depth := 256, sq_poll := false, io_poll := false, sq_poll_affinity := 0
    raw_params := none, print_profile_on_drop := false }

/-- An `io::Error`: either an OS error carrying `raw_os_error()`
(`none` models a non-OS error), or an `ErrorKind::Other` with a message. -/
inductive IoError where
  | os (code : Option Int)
  | other (msg : String)
deriving Repr, DecidableEq

/-- Modelled from the spec: the InFlightTable records outstanding
operations; `InFlight::new(n)` builds one with capacity `n`.  Only the
capacity is relevant to the bootstrap claims. -/
structure InFlight where
  capacity : Nat
deriving Repr, DecidableEq

/-- `InFlight::new` (modelled from the spec; only the capacity argument
is observable at the bootstrap level). -/
def InFlight.new (cap : Nat) : InFlight := ⟨cap⟩

/-- Modelled from the spec: the TicketQueue issues correlation tokens,
bounded by the completion depth; `TicketQueue::new(n)` builds one with
capacity `n`. -/
structure TicketQueue where
  capacity : Nat
deriving Repr, DecidableEq

/-- `TicketQueue::new` (modelled from the spec). -/
def TicketQueue.new (cap : Nat) : TicketQueue := ⟨cap⟩

/-- Modelled from the spec: the SubmissionQueue built by `Sq::new(&params,
ring_fd)` is bound to the negotiated parameters and the ring descriptor. -/
structure Sq where
  params : io_uring_params
  ring_fd : Int
deriving Repr, DecidableEq

/-- Modelled from the spec: the CompletionQueue built by `Cq::new(&params,
ring_fd, in_flight, ticket_queue)` is bound to the negotiated parameters,
the ring descriptor and the shared tables.  `available` is the number of
completion entries currently published but not yet drained, and `shutdown`
records whether the ring has been torn down; a fresh queue has no pending
entries and is not shut down. -/
structure Cq where
  params : io_uring_params
  ring_fd : Int
  in_flight : InFlight
  ticket_queue : TicketQueue
  available : Nat
  shutdown : Bool
deriving Repr, DecidableEq

/-- `Cq::new` (modelled from the spec): a fresh completion queue bound to
the given parameters, descriptor and tables. -/
def Cq.new (params : io_uring_params) (ring_fd : Int)
    (in_flight : InFlight) (ticket_queue : TicketQueue) : Cq :=
  { params := params, ring_fd := ring_fd, in_flight := in_flight
    ticket_queue := ticket_queue, available := 0, shutdown := false }

/-- Rust's `ControlFlow<(), usize>` as returned by the reaper operations. -/
inductive CtrlFlow where
  | Break : CtrlFlow
  | Continue : Nat → CtrlFlow
deriving Repr, DecidableEq

/-- Modelled from the spec: `Cq::reaper_iter::<BLOCK>(ring_fd)` performs
one drain pass: it signals `Break` exactly when the ring is shut down, and
otherwise drains every currently available completion entry and returns
`Continue` with the processed count.  The blocking wait of the
`BLOCK = true` variant is expressed in theorems as the hypothesis that the
pass runs in a state where an entry is available or the ring is shut
down. -/
def Cq.reaper_iter (c : Cq) (blocking : Bool) (ring_fd : Int) :
    Cq × CtrlFlow :=
  let _ := blocking
  let _ := ring_fd
  if c.shutdown then (c, CtrlFlow.Break)
  else ({ c with available := 0 }, CtrlFlow.Continue c.available)

/-- Modelled from the spec: `Cq::reaper_thread(ring_fd)` repeats the
blocking drain pass until it signals `Break`; the repetition is bounded by
explicit fuel. -/
def Cq.reaper_thread : Nat → Cq → Int → Cq
  | 0, c, _ => c
  | fuel + 1, c, ring_fd =>
    match c.reaper_iter true ring_fd with
    | (c', CtrlFlow.Break) => c'
    | (c', CtrlFlow.Continue _) => Cq.reaper_thread fuel c' ring_fd

/-- The `Reaper` struct of `config.rs`: the ring descriptor and the shared
completion-queue state (`Arc<Mutex<Cq>>`, modelled as the queue value). -/
structure Reaper where
  ring_fd : Int
  cq : Cq
deriving Repr, DecidableEq

/-- `Reaper::poll`: one non-blocking drain pass over the locked queue. -/
def Reaper.poll (r : Reaper) : Reaper × CtrlFlow :=
  let (cq', res) := r.cq.reaper_iter false r.ring_fd
  ({ r with cq := cq' }, res)

/-- `Reaper::block`: one blocking drain pass over the locked queue. -/
def Reaper.block (r : Reaper) : Reaper × CtrlFlow :=
  let (cq', res) := r.cq.reaper_iter true r.ring_fd
  ({ r with cq := cq' }, res)

/-- A record of the background thread spawned by `Config::start` when the
caller does not own reaping: the completion queue moved into the thread,
the ring descriptor, and the loop the thread body runs (as a fuel-indexed
function). -/
structure SpawnedThread where
  cq : Cq
  ring_fd : Int
  body : Nat → Cq

/-- The `Uring` built by `Uring::new(self, params.flags, ring_fd, sq, cq,
in_flight, ticket_queue)` and wrapped as `Rio(Arc<Uring>)`. -/
structure Uring where
  config : Config
  flags : Nat
  ring_fd : Int
  sq : Sq
  cq_opt : Option Cq
  in_flight : InFlight
  ticket_queue : TicketQueue

/-- `Rio`, the shared engine handle. -/
structure Rio where
  uring : Uring

/-- The successful return of `Config::start`: the engine handle, the
optional `Reaper`, and the record of any spawned background thread. -/
structure StartOk where
  rio : Rio
  reaper : Option Reaper
  spawned : Option SpawnedThread

/-- The observable result of a call to `Config::start`: a panic (from
`unwrap`), an `Err` return, or a successful return. -/
inductive Outcome where
  | panic : Outcome
  | err : IoError → Outcome
  | ok : StartOk → Outcome

/-- Whether an outcome is a successful return. -/
def Outcome.isOk : Outcome → Bool
  | Outcome.ok _ => true
  | _ => false

/-- Modelled from the spec: the environment of `Config::start` — the
`setup` syscall wrapper (ring creation; on success the kernel returns a
descriptor and writes the negotiated parameters back through the pointer),
`io::Error::last_os_error().raw_os_error()`, and the failure behaviour of
the fallible constructors `Sq::new` and `Cq::new`, none of which are in
the provided sources. -/
structure Env where
  setup : Nat → io_uring_params → Except IoError (Int × io_uring_params)
  lastOsError : Option Int
  sqNewErr : io_uring_params → Int → Option IoError
  cqNewErr : io_uring_params → Int → Option IoError

/-- The message substituted for OS error 12 (ENOMEM) in `Config::start`. -/
def memlockMsg : String :=
  "Not enough lockable memory. You probably need to raise the memlock rlimit, which often defaults to a pretty low number."

/-- `u32::try_from` on a `usize`: succeeds exactly below `2 ^ 32`. -/
def u32_try_from (n : Nat) : Option Nat :=
  if n < 2 ^ 32 then some n else none

/-- The parameter-resolution prefix of `Config::start` (lines 82–96):
a raw override is taken verbatim; otherwise the default parameter set,
with the `SQPOLL` flag and thread affinity set when `sq_poll` holds. -/
def Config.resolveParams (c : Config) : io_uring_params :=
  match c.raw_params with
  | some params => params
  | none =>
    let params := io_uring_params.default
    if c.sq_poll then
      { params with flags := IORING_SETUP_SQPOLL
                    sq_thread_cpu := c.sq_poll_affinity }
    else params

/-- The success value built by `Config::start` (lines 118–170) once the
ring descriptor is valid and both queue constructors have succeeded:
tables sized by the kernel-reported `params.cq_entries`, the queues bound
to the negotiated parameters and the ring descriptor, and the two reaping
modes selected by `own_reaper`. -/
def Config.buildOk (c : Config) (params : io_uring_params) (ring_fd : Int)
    (own_reaper : Bool) : StartOk :=
  let in_flight := InFlight.new params.cq_entries
  let ticket_queue := TicketQueue.new params.cq_entries
  let sq : Sq := { params := params, ring_fd := ring_fd }
  let cq := Cq.new params ring_fd in_flight ticket_queue
  let stored : Config := { c with raw_params := none }
  if own_reaper then
    { rio := ⟨{ config := stored, flags := params.flags
                ring_fd := ring_fd, sq := sq, cq_opt := some cq
                in_flight := in_flight
                ticket_queue := ticket_queue }⟩
      reaper := some { ring_fd := ring_fd, cq := cq }
      spawned := none }
  else
    { rio := ⟨{ config := stored, flags := params.flags
                ring_fd := ring_fd, sq := sq, cq_opt := none
                in_flight := in_flight
                ticket_queue := ticket_queue }⟩
      reaper := none
      spawned := some
        { cq := cq, ring_fd := ring_fd
          body := fun fuel => Cq.reaper_thread fuel cq ring_fd } }

/-- The remainder of `Config::start` after the `u32::try_from` conversion
(lines 100–171): ring creation, the negative-descriptor error path with
the `if let Some(12)` ENOMEM rewrite, then the construction of the success
value. -/
def Config.startWithEntries (env : Env) (c : Config) (own_reaper : Bool)
    (entries : Nat) (params0 : io_uring_params) : Outcome :=
  match env.setup entries params0 with
  | Except.error e => Outcome.err e
  | Except.ok (ring_fd, params) =>
    if ring_fd < 0 then
      Outcome.err
        (if env.lastOsError = some 12 then IoError.other memlockMsg
         else IoError.os env.lastOsError)
    else
      match env.sqNewErr params ring_fd with
      | some e => Outcome.err e
      | none =>
        match env.cqNewErr params ring_fd with
        | some e => Outcome.err e
        | none => Outcome.ok (c.buildOk params ring_fd own_reaper)

/-- `Config::start` (lines 78–171): resolve parameters, convert the depth
with `u32::try_from(..).unwrap()` (a panic above `u32::MAX`), then run the
rest of the bootstrap. -/
def Config.start (env : Env) (c : Config) (own_reaper : Bool) : Outcome :=
  let params0 := c.resolveParams
  match u32_try_from c.depth with
  | none => Outcome.panic
  | some entries => Config.startWithEntries env c own_reaper entries params0

/-! ### Concrete environments and inputs for witnesses -/

/-- A kernel that always accepts: descriptor 3, `sq_entries` as requested,
`cq_entries` twice the requested entries; the queue constructors never
fail. -/
def envOk : Env :=
  { setup := fun entries p =>
      Except.ok (3, { p with sq_entries := entries
                             cq_entries := 2 * entries })
    lastOsError := none
    sqNewErr := fun _ _ => none
    cqNewErr := fun _ _ => none }

/-- A kernel whose ring creation returns a negative descriptor with
`errno = 12` (insufficient lockable memory). -/
def envNomem : Env :=
  { setup := fun _ p => Except.ok (-1, p)
    lastOsError := some 12
    sqNewErr := fun _ _ => none
    cqNewErr := fun _ _ => none }

/-- Modelled from the spec: a kernel seen by an unprivileged caller — it
rejects ring creation (negative descriptor, `errno = 1`, EPERM) exactly
when the `SQPOLL` flag is requested, and otherwise behaves like
`envOk`. -/
def envUnpriv : Env :=
  { setup := fun entries p =>
      if p.flags.testBit 1 then Except.ok (-1, p)
      else Except.ok (3, { p with sq_entries := entries
                                  cq_entries := 2 * entries })
    lastOsError := some 1
    sqNewErr := fun _ _ => none
    cqNewErr := fun _ _ => none }

/-- A raw parameter override with recognisable field values. -/
def rawSample : io_uring_params :=
  { sq_entries := 7, cq_entries := 9, flags := 0, sq_thread_cpu := 5
    sq_thread_idle := 11, features := 13, wq_fd := 17 }

/-- A configuration that requests `SQPOLL` but also carries a raw override
without the `SQPOLL` flag. -/
def cfgSqpollRaw : Config :=
  { Config.default with sq_poll := true, raw_params := some rawSample }

/-- A configuration that requests `SQPOLL` with no raw override. -/
def cfgSqpoll : Config :=
  { Config.default with sq_poll := true }

/-- A configuration whose depth does not fit in `u32`. -/
def cfgHuge : Config :=
  { Config.default with depth := 2 ^ 32 }

/-- A reaper over a live queue with two pending completions. -/
def reaperAvail : Reaper :=
  { ring_fd := 3
    cq := { params := io_uring_params.default, ring_fd := 3
            in_flight := InFlight.new 8, ticket_queue := TicketQueue.new 8
            available := 2, shutdown := false } }

/-- A reaper over a live queue with no pending completions. -/
def reaperIdle : Reaper :=
  { ring_fd := 3
    cq := { params := io_uring_params.default, ring_fd := 3
            in_flight := InFlight.new 8, ticket_queue := TicketQueue.new 8
            available := 0, shutdown := false } }

/-- A reaper over a shut-down queue. -/
def reaperShut : Reaper :=
  { ring_fd := 3
    cq := { params := io_uring_params.default, ring_fd := 3
            in_flight := InFlight.new 8, ticket_queue := TicketQueue.new 8
            available := 0, shutdown := true } }

/-! ### Helper lemmas -/

/-- Inversion for a successful `Config.start`: the depth fits in `u32`,
ring creation succeeded with a non-negative descriptor, both queue
constructors succeeded, and the result is `buildOk` of the kernel-reported
parameters. -/
theorem start_ok_inv (env : Env) (c : Config) (own : Bool) (r : StartOk)
    (h : Config.start env c own = Outcome.ok r) :
    c.depth < 2 ^ 32 ∧
    ∃ fd params,
      env.setup c.depth c.resolveParams = Except.ok (fd, params) ∧
      ¬ fd < 0 ∧
      env.sqNewErr params fd = none ∧
      env.cqNewErr params fd = none ∧
      r = c.buildOk params fd own := by
  by_cases hd : c.depth < 2 ^ 32
  · refine ⟨hd, ?_⟩
    have hu : u32_try_from c.depth = some c.depth := by
      unfold u32_try_from
      rw [if_pos hd]
    rw [Config.start] at h
    rw [hu] at h
    replace h : Config.startWithEntries env c own c.depth c.resolveParams =
        Outcome.ok r := h
    rw [Config.startWithEntries.eq_def] at h
    split at h
    · exact absurd h (by simp)
    · rename_i fd params heq
      split at h
      · exact absurd h (by simp)
      · rename_i hfd
        split at h
        · exact absurd h (by simp)
        · rename_i hsq
          split at h
          · exact absurd h (by simp)
          · rename_i hcq
            injection h with h1
            exact ⟨fd, params, heq, hfd, hsq, hcq, h1.symm⟩
  · exfalso
    have hu : u32_try_from c.depth = none := by
      unfold u32_try_from
      rw [if_neg hd]
    rw [Config.start] at h
    rw [hu] at h
    exact absurd (show Outcome.panic = Outcome.ok r from h) (by simp)

/-- `Config.start` never panics when the depth fits in `u32`: every
branch after the conversion returns `err` or `ok`. -/
theorem start_ne_panic (env : Env) (c : Config) (own : Bool)
    (hd : c.depth < 2 ^ 32) :
    Config.start env c own ≠ Outcome.panic := by
  intro h
  have hu : u32_try_from c.depth = some c.depth := by
    unfold u32_try_from
    rw [if_pos hd]
  rw [Config.start] at h
  rw [hu] at h
  replace h : Config.startWithEntries env c own c.depth c.resolveParams =
      Outcome.panic := h
  rw [Config.startWithEntries.eq_def] at h
  split at h
  · exact absurd h (by simp)
  · split at h
    · exact absurd h (by simp)
    · split at h
      · exact absurd h (by simp)
      · split at h
        · exact absurd h (by simp)
        · exact absurd h (by simp)

/-- When the depth fits in `u32`, `Config.start` reduces to
`startWithEntries` at the unchanged depth and the resolved parameters. -/
theorem start_eq_startWithEntries (env : Env) (c : Config) (own : Bool)
    (hd : c.depth < 2 ^ 32) :
    Config.start env c own =
      Config.startWithEntries env c own c.depth c.resolveParams := by
  have hu : u32_try_from c.depth = some c.depth := by
    unfold u32_try_from
    rw [if_pos hd]
  rw [Config.start, hu]

/-- When ring creation returns a negative descriptor, `Config.start`
returns the last OS error, rewritten to the memlock message exactly for
code 12. -/
theorem start_neg_fd_err (env : Env) (c : Config) (own : Bool)
    (fd : Int) (params : io_uring_params)
    (hd : c.depth < 2 ^ 32)
    (hs : env.setup c.depth c.resolveParams = Except.ok (fd, params))
    (hfd : fd < 0) :
    Config.start env c own =
      Outcome.err
        (if env.lastOsError = some 12 then IoError.other memlockMsg
         else IoError.os env.lastOsError) := by
  rw [start_eq_startWithEntries env c own hd]
  rw [Config.startWithEntries.eq_def, hs]
  show (if fd < 0 then
      Outcome.err
        (if env.lastOsError = some 12 then IoError.other memlockMsg
         else IoError.os env.lastOsError)
    else
      match env.sqNewErr params fd with
      | some e => Outcome.err e
      | none =>
        match env.cqNewErr params fd with
        | some e => Outcome.err e
        | none => Outcome.ok (c.buildOk params fd own)) = _
  rw [if_pos hfd]

/-! ### Claims -/

/-- C1: for every valid configuration (depth within `u32`) and either
value of `own_reaper`, against any kernel that reports at least the
requested submission depth on success, `Config::start` returns either an
error (carrying no engine) or a fully built engine whose submission depth
is at least the requested depth and whose reaping side is wired (a
`Reaper` or a spawned drain thread); it never panics and never yields a
partially built engine. -/
theorem start_total_or_error (env : Env) (c : Config) (own : Bool)
    (hd : c.depth < 2 ^ 32)
    (hkernel : ∀ e p fd p', env.setup e p = Except.ok (fd, p') →
      e ≤ p'.sq_entries) :
    (∃ err, Config.start env c own = Outcome.err err) ∨
    (∃ r, Config.start env c own = Outcome.ok r ∧
      c.depth ≤ r.rio.uring.sq.params.sq_entries ∧
      (r.reaper.isSome = true ∨ r.spawned.isSome = true)) := by
  rcases ho : Config.start env c own with _ | e | r
  · exact absurd ho (start_ne_panic env c own hd)
  · exact Or.inl ⟨e, rfl⟩
  · right
    obtain ⟨-, fd, params, hs, -, -, -, hr⟩ := start_ok_inv env c own r ho
    have hle := hkernel _ _ _ _ hs
    subst hr
    refine ⟨_, rfl, ?_, ?_⟩
    · cases own <;> simpa [Config.buildOk] using hle
    · cases own <;> simp [Config.buildOk]

/-- Witness for C1: `envOk` with the default configuration. -/
theorem start_total_or_error_witness :
    (∃ err, Config.start envOk Config.default true = Outcome.err err) ∨
    (∃ r, Config.start envOk Config.default true = Outcome.ok r ∧
      Config.default.depth ≤ r.rio.uring.sq.params.sq_entries ∧
      (r.reaper.isSome = true ∨ r.spawned.isSome = true)) :=
  start_total_or_error envOk Config.default true (by decide)
    (by
      intro e p fd p' h
      dsimp only [envOk] at h
      injection h with h1
      injection h1 with h2 h3
      subst h3
      simp)

/-- C2: the parameter resolution of `Config::start` uses a supplied raw
override verbatim — independently of every other configuration option —
and, absent an override, builds the default parameter set, with the
`SQPOLL` flag and the `sq_thread_cpu` affinity set exactly when `sq_poll`
is requested. -/
theorem raw_params_resolution (c : Config) :
    (∀ p, c.raw_params = some p → c.resolveParams = p) ∧
    (∀ c' : Config, c'.raw_params = c.raw_params →
      c.raw_params.isSome = true → c'.resolveParams = c.resolveParams) ∧
    (c.raw_params = none →
      c.resolveParams =
        if c.sq_poll then
          { io_uring_params.default with
              flags := IORING_SETUP_SQPOLL
              sq_thread_cpu := c.sq_poll_affinity }
        else io_uring_params.default) := by
  refine ⟨?_, ?_, ?_⟩
  · intro p hp
    unfold Config.resolveParams
    rw [hp]
  · intro c' hc hs
    rcases hp : c.raw_params with _ | p
    · rw [hp] at hs
      simp at hs
    · rw [hp] at hc
      unfold Config.resolveParams
      rw [hp, hc]
  · intro hp
    unfold Config.resolveParams
    rw [hp]

/-- Witness for C2: a config carrying a raw override resolves to exactly
that override even though it also sets `sq_poll`; the default config
resolves to the default parameter set. -/
theorem raw_params_resolution_witness :
    Config.resolveParams cfgSqpollRaw = rawSample ∧
    Config.resolveParams Config.default =
      (if Config.default.sq_poll then
        { io_uring_params.default with
            flags := IORING_SETUP_SQPOLL
            sq_thread_cpu := Config.default.sq_poll_affinity }
      else io_uring_params.default) :=
  ⟨(raw_params_resolution cfgSqpollRaw).1 rawSample rfl,
   (raw_params_resolution Config.default).2.2 rfl⟩

/-- C10: `Config::start` panics (the `u32::try_from(..).unwrap()`) exactly
when the requested depth exceeds `u32::MAX`; for any smaller depth the
conversion succeeds and the depth is handed to ring creation unchanged. -/
theorem depth_u32_conversion (env : Env) (c : Config) (own : Bool) :
    (2 ^ 32 ≤ c.depth → Config.start env c own = Outcome.panic) ∧
    (c.depth < 2 ^ 32 →
      Config.start env c own =
        Config.startWithEntries env c own c.depth c.resolveParams) := by
  constructor
  · intro hge
    have hu : u32_try_from c.depth = none := by
      unfold u32_try_from
      rw [if_neg (Nat.not_lt.mpr hge)]
    rw [Config.start, hu]
  · intro hlt
    have hu : u32_try_from c.depth = some c.depth := by
      unfold u32_try_from
      rw [if_pos hlt]
    rw [Config.start, hu]

/-- The parameters `envOk` reports back for the default configuration
(descriptor 3, `sq_entries = 256`, `cq_entries = 512`). -/
def paramsOk : io_uring_params :=
  { io_uring_params.default with sq_entries := 256, cq_entries := 512 }

/-- C3: on success with `own_reaper = true`, `Config::start` returns a
`Reaper` holding the same completion-queue state as the engine and spawns
no thread; with `own_reaper = false` it returns no `Reaper`, the engine
holds no queue, and exactly one background thread is spawned whose body
runs the completion queue's blocking drain loop on the engine's
descriptor. -/
theorem start_reaper_mode (env : Env) (c : Config) (own : Bool)
    (r : StartOk) (h : Config.start env c own = Outcome.ok r) :
    (own = true →
      r.spawned = none ∧
      ∃ rp, r.reaper = some rp ∧
        r.rio.uring.cq_opt = some rp.cq ∧
        rp.ring_fd = r.rio.uring.ring_fd) ∧
    (own = false →
      r.reaper = none ∧
      r.rio.uring.cq_opt = none ∧
      ∃ t, r.spawned = some t ∧
        t.ring_fd = r.rio.uring.ring_fd ∧
        t.cq.ring_fd = r.rio.uring.ring_fd ∧
        t.cq.in_flight = r.rio.uring.in_flight ∧
        t.cq.ticket_queue = r.rio.uring.ticket_queue ∧
        t.body = fun fuel => Cq.reaper_thread fuel t.cq t.ring_fd) := by
  obtain ⟨-, fd, params, -, -, -, -, hr⟩ := start_ok_inv env c own r h
  subst hr
  cases own
  · refine ⟨fun hh => absurd hh (by simp), fun _ => ?_⟩
    exact ⟨rfl, rfl, _, rfl, rfl, rfl, rfl, rfl, rfl⟩
  · refine ⟨fun _ => ?_, fun hh => absurd hh (by simp)⟩
    exact ⟨rfl, _, rfl, rfl, rfl⟩

/-- Witness for C3: the default configuration against `envOk` with
`own_reaper = true`. -/
theorem start_reaper_mode_witness :
    (Config.buildOk Config.default paramsOk 3 true).spawned = none ∧
    ∃ rp, (Config.buildOk Config.default paramsOk 3 true).reaper = some rp ∧
      (Config.buildOk Config.default paramsOk 3 true).rio.uring.cq_opt =
        some rp.cq ∧
      rp.ring_fd =
        (Config.buildOk Config.default paramsOk 3 true).rio.uring.ring_fd :=
  (start_reaper_mode envOk Config.default true
    (Config.buildOk Config.default paramsOk 3 true) rfl).1 rfl

/-- C4: on every successful start, the InFlightTable and the TicketQueue
each have capacity equal to the kernel-reported completion depth
(`cq_entries` of the negotiated parameters carried by the submission
queue), and the submission and completion queues are bound to the same
ring descriptor and the same tables. -/
theorem start_component_sizes (env : Env) (c : Config) (own : Bool)
    (r : StartOk) (h : Config.start env c own = Outcome.ok r) :
    r.rio.uring.in_flight.capacity = r.rio.uring.sq.params.cq_entries ∧
    r.rio.uring.ticket_queue.capacity = r.rio.uring.sq.params.cq_entries ∧
    r.rio.uring.sq.ring_fd = r.rio.uring.ring_fd ∧
    (∀ cq, r.rio.uring.cq_opt = some cq →
      cq.ring_fd = r.rio.uring.ring_fd ∧
      cq.params = r.rio.uring.sq.params ∧
      cq.in_flight = r.rio.uring.in_flight ∧
      cq.ticket_queue = r.rio.uring.ticket_queue) ∧
    (∀ t, r.spawned = some t →
      t.cq.ring_fd = r.rio.uring.ring_fd ∧
      t.cq.params = r.rio.uring.sq.params ∧
      t.cq.in_flight = r.rio.uring.in_flight ∧
      t.cq.ticket_queue = r.rio.uring.ticket_queue) := by
  obtain ⟨-, fd, params, -, -, -, -, hr⟩ := start_ok_inv env c own r h
  subst hr
  cases own
  · refine ⟨rfl, rfl, rfl, ?_, ?_⟩
    · intro cq hcq
      exact absurd hcq (by simp [Config.buildOk])
    · intro t ht
      simp only [Config.buildOk] at ht
      injection ht with h1
      subst h1
      exact ⟨rfl, rfl, rfl, rfl⟩
  · refine ⟨rfl, rfl, rfl, ?_, ?_⟩
    · intro cq hcq
      simp only [Config.buildOk] at hcq
      injection hcq with h1
      subst h1
      exact ⟨rfl, rfl, rfl, rfl⟩
    · intro t ht
      exact absurd ht (by simp [Config.buildOk])

/-- Witness for C4: the default configuration (depth 256) against `envOk`
(which reports `cq_entries = 512`): both tables have capacity 512, not the
requested 256, and the queues share descriptor 3. -/
theorem start_component_sizes_witness :
    (Config.buildOk Config.default paramsOk 3 true).rio.uring.in_flight.capacity =
      (Config.buildOk Config.default paramsOk 3 true).rio.uring.sq.params.cq_entries ∧
    (Config.buildOk Config.default paramsOk 3 true).rio.uring.ticket_queue.capacity =
      (Config.buildOk Config.default paramsOk 3 true).rio.uring.sq.params.cq_entries ∧
    (Config.buildOk Config.default paramsOk 3 true).rio.uring.in_flight.capacity = 512 ∧
    Config.default.depth = 256 :=
  ⟨(start_component_sizes envOk Config.default true
      (Config.buildOk Config.default paramsOk 3 true) rfl).1,
   (start_component_sizes envOk Config.default true
      (Config.buildOk Config.default paramsOk 3 true) rfl).2.1,
   rfl, rfl⟩

/-- C5: whenever ring creation yields a negative descriptor,
`Config::start` returns an error, and the error is the actionable memlock
message exactly when the last OS error code is 12; every other negative
result surfaces the raw OS error. -/
theorem negative_ring_fd_error (env : Env) (c : Config) (own : Bool)
    (fd : Int) (params : io_uring_params)
    (hd : c.depth < 2 ^ 32)
    (hs : env.setup c.depth c.resolveParams = Except.ok (fd, params))
    (hfd : fd < 0) :
    Config.start env c own =
      Outcome.err
        (if env.lastOsError = some 12 then IoError.other memlockMsg
         else IoError.os env.lastOsError) :=
  start_neg_fd_err env c own fd params hd hs hfd

/-- Witness for C5: `envNomem` (negative descriptor, errno 12) makes the
default configuration fail with the memlock message. -/
theorem negative_ring_fd_error_witness :
    Config.start envNomem Config.default true =
      Outcome.err
        (if envNomem.lastOsError = some 12 then IoError.other memlockMsg
         else IoError.os envNomem.lastOsError) :=
  negative_ring_fd_error envNomem Config.default true (-1)
    io_uring_params.default (by decide) rfl (by decide)

/-- Witness for C10: depth `2 ^ 32` panics; the default depth 256 reaches
ring creation unchanged. -/
theorem depth_u32_conversion_witness :
    Config.start envOk cfgHuge true = Outcome.panic ∧
    Config.start envOk Config.default true =
      Config.startWithEntries envOk Config.default true Config.default.depth
        Config.default.resolveParams :=
  ⟨(depth_u32_conversion envOk cfgHuge true).1 (le_refl _),
   (depth_u32_conversion envOk Config.default true).2 (by decide)⟩

/-- C6: `poll` performs one non-blocking pass and `block` one pass that
proceeds once a completion is available or the ring is shut down; each
signals `Break` exactly when the ring is shut down and otherwise
`Continue` with the processed count; in particular `poll` on a live queue
with nothing available returns a zero count. -/
theorem reaper_contract (r : Reaper) :
    ((r.poll.2 = CtrlFlow.Break ↔ r.cq.shutdown = true) ∧
     (r.cq.shutdown = false → r.poll.2 = CtrlFlow.Continue r.cq.available) ∧
     (r.cq.shutdown = false → r.cq.available = 0 →
        r.poll.2 = CtrlFlow.Continue 0)) ∧
    ((r.block.2 = CtrlFlow.Break ↔ r.cq.shutdown = true) ∧
     ((1 ≤ r.cq.available ∨ r.cq.shutdown = true) → r.cq.shutdown = false →
        ∃ n, 1 ≤ n ∧ r.block.2 = CtrlFlow.Continue n)) := by
  cases hsd : r.cq.shutdown
  · have hp : r.poll.2 = CtrlFlow.Continue r.cq.available := by
      simp [Reaper.poll, Cq.reaper_iter, hsd]
    have hb : r.block.2 = CtrlFlow.Continue r.cq.available := by
      simp [Reaper.block, Cq.reaper_iter, hsd]
    refine ⟨⟨by simp [hp], fun _ => hp, fun _ h0 => by rw [hp, h0]⟩,
            ⟨by simp [hb], fun h1 _ => ?_⟩⟩
    rcases h1 with h1 | h1
    · exact ⟨r.cq.available, h1, hb⟩
    · exact absurd h1 (by simp [hsd])
  · have hp : r.poll.2 = CtrlFlow.Break := by
      simp [Reaper.poll, Cq.reaper_iter, hsd]
    have hb : r.block.2 = CtrlFlow.Break := by
      simp [Reaper.block, Cq.reaper_iter, hsd]
    refine ⟨⟨by simp [hp], ?_, ?_⟩, ⟨by simp [hb], ?_⟩⟩
    · intro hh
      exact absurd hh (by simp)
    · intro hh
      exact absurd hh (by simp)
    · intro _ hh
      exact absurd hh (by simp)

/-- Witness for C6: a live idle queue polls a zero count; a live queue
with two pending completions blocks into a positive count; a shut-down
queue signals `Break`. -/
theorem reaper_contract_witness :
    reaperIdle.poll.2 = CtrlFlow.Continue 0 ∧
    (∃ n, 1 ≤ n ∧ reaperAvail.block.2 = CtrlFlow.Continue n) ∧
    reaperShut.block.2 = CtrlFlow.Break :=
  ⟨(reaper_contract reaperIdle).1.2.2 rfl rfl,
   (reaper_contract reaperAvail).2.2 (Or.inl (by decide)) rfl,
   (reaper_contract reaperShut).2.1.mpr rfl⟩

/-- C7 counterexample: the claim quantifies over every configuration with
`sq_poll = true`, but a raw override bypasses `sq_poll` entirely: under a
kernel that rejects every `SQPOLL`-flagged creation (an unprivileged
caller), a configuration with `sq_poll = true` and a raw override without
the `SQPOLL` flag starts successfully as a non-polling engine instead of
failing. -/
theorem sqpoll_claim_counterexample :
    cfgSqpollRaw.sq_poll = true ∧
    Outcome.isOk (Config.start envUnpriv cfgSqpollRaw false) = true :=
  ⟨rfl, rfl⟩

/-- C7 (amended): for every configuration with `sq_poll = true` and no
raw override, run against a kernel that rejects every `SQPOLL`-flagged
ring creation (no elevated privilege), `Config::start` returns an error;
the resolved parameters keep the `SQPOLL` flag set, so the request is
never silently cleared or downgraded. -/
theorem sqpoll_unprivileged_fails (env : Env) (c : Config) (own : Bool)
    (hd : c.depth < 2 ^ 32)
    (hraw : c.raw_params = none) (hsq : c.sq_poll = true)
    (hpriv : ∀ e p, p.flags.testBit 1 = true →
      (∃ err, env.setup e p = Except.error err) ∨
      (∃ fd p', env.setup e p = Except.ok (fd, p') ∧ fd < 0)) :
    c.resolveParams.flags.testBit 1 = true ∧
    ∃ err, Config.start env c own = Outcome.err err := by
  have hflag : c.resolveParams.flags.testBit 1 = true := by
    rw [Config.resolveParams.eq_def, hraw, hsq]
    show Nat.testBit IORING_SETUP_SQPOLL 1 = true
    decide
  refine ⟨hflag, ?_⟩
  rcases hpriv c.depth c.resolveParams hflag with ⟨err, herr⟩ | ⟨fd, p', hok, hfd⟩
  · refine ⟨err, ?_⟩
    rw [start_eq_startWithEntries env c own hd]
    rw [Config.startWithEntries.eq_def, herr]
  · exact ⟨_, start_neg_fd_err env c own fd p' hd hok hfd⟩

/-- Witness for C7 (amended): the `SQPOLL`-requesting configuration with
no raw override fails against the unprivileged kernel. -/
theorem sqpoll_unprivileged_fails_witness :
    (Config.resolveParams cfgSqpoll).flags.testBit 1 = true ∧
    ∃ err, Config.start envUnpriv cfgSqpoll false = Outcome.err err :=
  sqpoll_unprivileged_fails envUnpriv cfgSqpoll false (by decide) rfl rfl
    (by
      intro e p hflag
      right
      refine ⟨-1, p, ?_, by decide⟩
      dsimp only [envUnpriv]
      rw [hflag]
      simp)

/-- The outcome with the stored configuration's `io_poll` field replaced;
errors and panics are untouched.  This captures the only trace a differing
`io_poll` can leave on `Config::start`: the field is stored in the engine's
configuration snapshot but never read. -/
def Outcome.withIoPoll (b : Bool) : Outcome → Outcome
  | Outcome.ok r =>
    Outcome.ok
      { r with
          rio := ⟨{ r.rio.uring with
                      config := { r.rio.uring.config with io_poll := b } }⟩ }
  | o => o

/-- C9: `io_poll` has no effect: two configurations differing only in
`io_poll` resolve identical kernel parameters, and `Config::start` behaves
identically on them — the results agree up to the stored configuration
snapshot's own `io_poll` field. -/
theorem io_poll_no_effect (env : Env) (c : Config) (b own : Bool) :
    Config.resolveParams { c with io_poll := b } = Config.resolveParams c ∧
    Config.start env { c with io_poll := b } own =
      Outcome.withIoPoll b (Config.start env c own) := by
  refine ⟨rfl, ?_⟩
  by_cases hd : c.depth < 2 ^ 32
  · rw [start_eq_startWithEntries env { c with io_poll := b } own hd]
    rw [start_eq_startWithEntries env c own hd]
    rw [show ({ c with io_poll := b } : Config).depth = c.depth from rfl]
    rw [show Config.resolveParams { c with io_poll := b } =
          c.resolveParams from rfl]
    rw [Config.startWithEntries.eq_def, Config.startWithEntries.eq_def]
    rcases hs : env.setup c.depth c.resolveParams with e | ⟨fd, params⟩
    · rfl
    · show (if fd < 0 then _ else _) = Outcome.withIoPoll b (if fd < 0 then _ else _)
      by_cases hfd : fd < 0
      · rw [if_pos hfd, if_pos hfd]
        rfl
      · rw [if_neg hfd, if_neg hfd]
        rcases hsq : env.sqNewErr params fd with _ | e
        · rcases hcq : env.cqNewErr params fd with _ | e
          · show Outcome.ok ({ c with io_poll := b }.buildOk params fd own) =
              Outcome.withIoPoll b (Outcome.ok (c.buildOk params fd own))
            cases own <;> rfl
          · rfl
        · rfl
  · have hu : u32_try_from c.depth = none := by
      unfold u32_try_from
      rw [if_neg hd]
    rw [Config.start, Config.start, hu]
    rfl

end Rio
